import Mathlib

/-!
Shallow embedding of `packages/cli/src/commands/open.ts` (the "vercel open"
CLI subcommand).

The command is glue code over external collaborators (argument parser, scope
resolver, path validator, project linker, REST client, list prompt, OS
launcher).  Each collaborator call is embedded by recording its outcome in an
environment record `Env`, and every observable side effect (an `output.error`
or `output.log` line, a REST fetch, an `execa` subprocess launch) is recorded
in an event trace.  The command itself becomes the pure function `openCmd`,
which either returns an exit code together with the trace and the final client
config (the TypeScript `return n` paths) or re-throws a scope error (the
TypeScript `throw err` path), modelled with `Except`.
-/

/-- A team record; only `id` is read by this file. -/
structure Team where
  id : String
deriving Repr, DecidableEq

/-- An org record from project linking; `slug`, `type` and `id` are read. -/
structure Org where
  id : String
  slug : String
  type : String
deriving Repr, DecidableEq

/-- A linked project; only `name` is read by this file. -/
structure Project where
  id : String
  name : String
deriving Repr, DecidableEq

/-- A deployment object in the fetched project payload.  The fetch returns a
`Partial<Project>` JSON payload, and the source guards `id` and `url` with
optional chaining, so both are embedded as optional. -/
structure Deployment where
  id : Option String := none
  url : Option String := none
deriving Repr, DecidableEq

/-- The `targets` object of the fetched project payload. -/
structure Targets where
  production : Option Deployment := none
deriving Repr, DecidableEq

/-- The project payload fetched from `GET /v9/projects/:name` (the source
types it `Partial<Project>` and optional-chains every access). -/
structure ProjRecord where
  latestDeployments : Option (List Deployment) := none
  targets : Option Targets := none
deriving Repr, DecidableEq

/-- The error thrown by `getScope`: the source reads `err.code` and
`err.message`. -/
structure ScopeErr where
  code : String
  message : String
deriving Repr, DecidableEq

/-- The result of `getScope`; the source destructures `{ team }`, which may be
null. -/
structure Scope where
  team : Option Team
deriving Repr, DecidableEq

/-- The client config; the source assigns `client.config.currentTeam`.
`otherConfig` stands for every other field of the config, which this command
never touches. -/
structure Config where
  currentTeam : Option String
  otherConfig : String
deriving Repr, DecidableEq

/-- Outcome of `validatePaths`: either `{ valid: false, exitCode }` or
`{ valid: true, path }`. -/
inductive ValidateOutcome where
  | invalid (exitCode : Nat)
  | valid (path : String)
deriving Repr, DecidableEq

/-- Outcome of `ensureLink`: a number (an exit code to propagate) or a linked
`{ project, org }` pair. -/
inductive LinkResult where
  | exitCode (n : Nat)
  | linked (project : Project) (org : Org)
deriving Repr, DecidableEq

/-- One run environment: the outcome of every external collaborator the
command calls.  `argvError` is the message of the `getArgs` exception when
parsing fails; `userPick` is the index the user picks in the list prompt
(`none` when the user aborts). -/
structure Env where
  argvError : Option String
  helpFlag : Bool
  yesFlag : Bool
  scopeResult : Except ScopeErr Scope
  validateResult : ValidateOutcome
  linkResult : LinkResult
  fetchResult : Except String ProjRecord
  userPick : Option Nat
deriving Repr

/-- Observable side effects of a run, in order: `output.error` lines,
`output.log` lines, REST fetches (with the value of `config.currentTeam` at
the moment the fetch is issued), and `execa` subprocess launches. -/
inductive Event where
  | errorOut (msg : String)
  | logOut (msg : String)
  | fetch (url : String) (currentTeam : Option String)
  | execa (cmd : String) (args : List String)
deriving Repr, DecidableEq

/-- Whether an event is an `execa` subprocess launch. -/
def Event.isExeca : Event → Bool
  | .execa _ _ => true
  | _ => false

/-- Whether an event is an `output.log` line. -/
def Event.isLogOut : Event → Bool
  | .logOut _ => true
  | _ => false

/-- One entry of the `choices` array passed to the list prompt. -/
structure MenuChoice where
  name : String
  value : String
  short : String
deriving Repr, DecidableEq

/-- JavaScript `a || b` where `a` is `string | undefined`: the right operand
is taken when the left is undefined or the empty string (both falsy). -/
def jsOrElse (a : Option String) (b : String) : String :=
  match a with
  | some s => if s = "" then b else s
  | none => b

/-- JavaScript template-literal rendering of a `string | undefined` value:
an undefined interpolant renders as the text `undefined`. -/
def jsToString : Option String → String
  | some s => s
  | none => "undefined"

/-- Replace the first occurrence of `pat` in a character list by `rep`,
exactly as JavaScript `String.prototype.replace` with a string pattern does:
scan left to right, rewrite the first match only. -/
def replaceFirstList (pat rep : List Char) : List Char → List Char
  | [] => if pat.isPrefixOf ([] : List Char) then rep else []
  | c :: rest =>
    if pat.isPrefixOf (c :: rest) then rep ++ (c :: rest).drop pat.length
    else c :: replaceFirstList pat rep rest

/-- JavaScript `s.replace(pat, rep)` with a string `pat`: only the first
occurrence is replaced. -/
def jsReplaceFirst (s pat rep : String) : String :=
  ⟨replaceFirstList pat.data rep.data s.data⟩

/-- Node `querystring.stringify({ teamId: team?.id })`: an undefined value
serialises as an empty string after the equals sign. -/
def stringifyTeamId (team : Option Team) : String :=
  "teamId=" ++ (match team with | some t => t.id | none => "")

/-- Modelled from the spec: `getCommandName` lives in `util/pkg-name`, outside
this file; it renders the package name followed by the subcommand.  Terminal
styling (chalk) is elided. -/
def getCommandName (cmd : String) : String :=
  "vercel " ++ cmd

/-- Modelled from the spec: `link` from `util/output/link` renders a terminal
hyperlink for a URL; the styling is elided and the URL text kept. -/
def link (url : String) : String :=
  url

/-- The `output.log` message printed when the user selects a `not_found`
choice (chalk styling elided). -/
def noDeploymentsMessage : String :=
  "No deployments found. Run " ++ getCommandName "deploy" ++ " to create a deployment."

/-- `getDashboardUrl(org, project)` from the source. -/
def getDashboardUrl (org : Org) (project : Project) : String :=
  "https://vercel.com/" ++ org.slug ++ "/" ++ project.name

/-- `getProject(client, project, team)` from the source: one REST fetch of
`/v9/projects/:name?teamId=...`; a rejected fetch is caught, its message sent
to `output.error`, and `undefined` returned.  The second component is the
event trace of the call; each fetch event records `config.currentTeam` at the
moment of the call. -/
def getProject (env : Env) (project : Project) (team : Option Team)
    (curTeam : Option String) : Option ProjRecord × List Event :=
  let url := "/v9/projects/" ++ project.name ++ "?" ++ stringifyTeamId team
  match env.fetchResult with
  | .ok proj => (some proj, [Event.fetch url curTeam])
  | .error msg => (none, [Event.fetch url curTeam, Event.errorOut msg])

/-- `getInspectorUrl(client, project, org, team)` from the source: fetch the
project, take `latestDeployments?.[0]?.id?.replace("dpl_", "")`, and when that
is truthy build the inspector URL. -/
def getInspectorUrl (env : Env) (project : Project) (org : Org)
    (team : Option Team) (curTeam : Option String) : Option String × List Event :=
  let pr := getProject env project team curTeam
  (match pr.1 with
   | some proj =>
     match (proj.latestDeployments.bind List.head?).bind Deployment.id |>.map
         (fun i => jsReplaceFirst i "dpl_" "") with
     | some latestDeploymentId =>
       if latestDeploymentId = "" then none
       else some ("https://vercel.com/" ++ org.slug ++ "/" ++ project.name ++
         "/" ++ latestDeploymentId)
     | none => none
   | none => none,
   pr.2)

/-- `getLatestDeploymentUrl(client, project, team)` from the source: when
`proj?.latestDeployments?.[0]?.url` is truthy, prefix it with `https://`. -/
def getLatestDeploymentUrl (env : Env) (project : Project) (team : Option Team)
    (curTeam : Option String) : Option String × List Event :=
  let pr := getProject env project team curTeam
  (match (pr.1.bind ProjRecord.latestDeployments).bind List.head? |>.bind Deployment.url with
   | some u => if u = "" then none else some ("https://" ++ u)
   | none => none,
   pr.2)

/-- `getLatestProdDeployment(client, project, team)` from the source: when
`proj?.targets?.production` exists, prefix its `url` with `https://`. -/
def getLatestProdDeployment (env : Env) (project : Project) (team : Option Team)
    (curTeam : Option String) : Option String × List Event :=
  let pr := getProject env project team curTeam
  (match (pr.1.bind ProjRecord.targets).bind Targets.production with
   | some production => some ("https://" ++ jsToString production.url)
   | none => none,
   pr.2)

/-- The value `client.config.currentTeam` is set to after linking:
the ternary on `org.type` being `team`: the org id, or undefined. -/
def updatedTeam (org : Org) : Option String :=
  if org.type = "team" then some org.id else none

/-- The `choices` array passed to the list prompt, given the four resolved
URLs (the three optional ones fall back to the `not_found` sentinel via
JavaScript `||`). -/
def openChoices (dashboardUrl : String)
    (inspectorUrl latestDeploymentUrl latestProductionDeployment : Option String) :
    List MenuChoice :=
  [ { name := "Dashboard", value := dashboardUrl, short := "Dashboard" },
    { name := "Latest Deployment Inspector",
      value := jsOrElse inspectorUrl "not_found",
      short := "Deployment Inspector" },
    { name := "Latest Preview Deployment",
      value := jsOrElse latestDeploymentUrl "not_found",
      short := "Latest Preview Deployment" },
    { name := "Latest Production Deployment",
      value := jsOrElse latestProductionDeployment "not_found",
      short := "Latest Production Deployment" } ]

/-- The string the `list` prompt returns: the picked choice value, or the
empty string when the user aborts. -/
def listPrompt (choices : List MenuChoice) (userPick : Option Nat) : String :=
  match userPick with
  | none => ""
  | some i => ((choices.get? i).map MenuChoice.value).getD ""

/-- The `open` command itself (named `openCmd`; `open` is a Lean keyword).
Returns `.error err` on the re-thrown scope error, otherwise `.ok` with the
exit code, the event trace, and the final client config. -/
def openCmd (env : Env) (config : Config) :
    Except ScopeErr (Nat × List Event × Config) :=
  match env.argvError with
  | some _ => .ok (1, [], config)
  | none =>
    if env.helpFlag then .ok (2, [], config)
    else
      match env.scopeResult with
      | .error err =>
        if err.code = "NOT_AUTHORIZED" ∨ err.code = "TEAM_DELETED" then
          .ok (1, [Event.errorOut err.message], config)
        else
          .error err
      | .ok scope =>
        match env.validateResult with
        | .invalid exitCode => .ok (exitCode, [], config)
        | .valid _path =>
          match env.linkResult with
          | .exitCode n => .ok (n, [], config)
          | .linked project org =>
            let team := scope.team
            let config2 : Config := { config with currentTeam := updatedTeam org }
            let dashboardUrl := getDashboardUrl org project
            let p1 := getInspectorUrl env project org team config2.currentTeam
            let p2 := getLatestDeploymentUrl env project team config2.currentTeam
            let p3 := getLatestProdDeployment env project team config2.currentTeam
            let choices := openChoices dashboardUrl p1.1 p2.1 p3.1
            let evs := p1.2 ++ p2.2 ++ p3.2
            let choice := listPrompt choices env.userPick
            if choice = "not_found" then
              .ok (1, evs ++ [Event.logOut noDeploymentsMessage], config2)
            else if choice = "" then
              .ok (0, evs, config2)
            else
              .ok (0, evs ++ [Event.execa "open" [choice],
                Event.logOut ("🪄 Opened " ++ link choice)], config2)

/-! Concrete sample data, used below to evaluate the embedding on closed
inputs. -/

/-- A sample team. -/
def teamC : Team := ⟨"team_1"⟩

/-- A sample org of type team. -/
def orgC : Org := ⟨"org_1", "acme", "team"⟩

/-- A sample linked project. -/
def projectC : Project := ⟨"prj_1", "web"⟩

/-- A sample starting client config. -/
def cfgC : Config := ⟨some "stale_team", "rest-of-config"⟩

/-- A sample resolved scope. -/
def scopeC : Scope := ⟨some teamC⟩

/-- A baseline run: parse and scope succeed, the path validates, the project
links, the fetch returns an empty payload, the user picks the Dashboard. -/
def baseEnv : Env where
  argvError := none
  helpFlag := false
  yesFlag := false
  scopeResult := .ok scopeC
  validateResult := .valid "/cwd"
  linkResult := .linked projectC orgC
  fetchResult := .ok {}
  userPick := some 0

/-- A run whose fetched record has no deployment id, url or production
target, and whose user picks the inspector choice. -/
def envC1 : Env := { baseEnv with fetchResult := .ok ⟨some [], none⟩, userPick := some 1 }

/-- A run whose fetched record has latest deployment id dpl_abc123. -/
def envC2 : Env :=
  { baseEnv with fetchResult := .ok ⟨some [⟨some "dpl_abc123", some "web-abc.vercel.app"⟩], none⟩ }

/-- A run in which the user aborts the prompt. -/
def envC3 : Env := { baseEnv with userPick := none }

/-- A run whose REST fetch rejects. -/
def envC4 : Env := { baseEnv with fetchResult := .error "fetch failed" }

/-- A run in which the help flag is set. -/
def envHelp : Env := { baseEnv with helpFlag := true }

/-- A sample scope-resolution error with code NOT_AUTHORIZED. -/
def errC6 : ScopeErr := ⟨"NOT_AUTHORIZED", "not authorized"⟩

/-- A run in which scope resolution throws NOT_AUTHORIZED. -/
def envC6 : Env := { baseEnv with scopeResult := .error errC6 }

/-- A run whose latest deployment id contains dpl_ in the middle. -/
def envMid : Env :=
  { baseEnv with fetchResult := .ok ⟨some [⟨some "abcdpl_def", none⟩], none⟩ }

/-- A run whose latest deployment id contains dpl_ twice. -/
def envDouble : Env :=
  { baseEnv with fetchResult := .ok ⟨some [⟨some "dpl_dpl_x", none⟩], none⟩ }

/-- A run whose latest deployment id is the empty string. -/
def envEmptyId : Env :=
  { baseEnv with fetchResult := .ok ⟨some [⟨some "", none⟩], none⟩ }

/-- A run whose latest deployment has no id field at all. -/
def envNoId : Env :=
  { baseEnv with fetchResult := .ok ⟨some [⟨none, some "x.vercel.app"⟩], none⟩ }

/-! Helper lemmas shared by the claim theorems. -/

/-- A dashboard URL always starts with the scheme, so it is neither the
sentinel nor the abort value. -/
theorem dashboardUrl_ne (org : Org) (project : Project) :
    getDashboardUrl org project ≠ "not_found" ∧ getDashboardUrl org project ≠ "" := by
  constructor <;> intro h <;> {
    have h2 : (getDashboardUrl org project).data = _ := congrArg String.data h
    rw [show getDashboardUrl org project =
      "https://vercel.com/" ++ (org.slug ++ ("/" ++ project.name)) from by
        simp [getDashboardUrl, String.append_assoc]] at h2
    rw [String.data_append] at h2
    simp_all
  }

/-- The trace of each URL helper is exactly the trace of its single
`getProject` call. -/
theorem helper_events_eq (env : Env) (project : Project) (org : Org)
    (team : Option Team) (ct : Option String) :
    (getInspectorUrl env project org team ct).2 = (getProject env project team ct).2 ∧
    (getLatestDeploymentUrl env project team ct).2 = (getProject env project team ct).2 ∧
    (getLatestProdDeployment env project team ct).2 = (getProject env project team ct).2 :=
  ⟨rfl, rfl, rfl⟩

/-- A `getProject` call emits only fetch and error-output events: no
subprocess launch and no `output.log` line. -/
theorem getProject_events_benign (env : Env) (project : Project)
    (team : Option Team) (ct : Option String) :
    ((getProject env project team ct).2).all
      (fun e => !e.isExeca && !e.isLogOut) = true := by
  unfold getProject
  rcases env.fetchResult with msg | proj <;> simp [Event.isExeca, Event.isLogOut]

/-- A `getProject` trace contains no subprocess launch and no log line, in
filtered form. -/
theorem getProject_filter_empty (env : Env) (project : Project)
    (team : Option Team) (ct : Option String) :
    ((getProject env project team ct).2).filter Event.isExeca = [] ∧
    ((getProject env project team ct).2).filter Event.isLogOut = [] := by
  unfold getProject
  rcases env.fetchResult with msg | proj <;>
    simp [List.filter, Event.isExeca, Event.isLogOut]

/-- Every fetch event a `getProject` call emits records the current-team
value it was called with. -/
theorem getProject_fetch_team (env : Env) (project : Project)
    (team : Option Team) (ct : Option String) :
    ∀ u ct2, Event.fetch u ct2 ∈ (getProject env project team ct).2 → ct2 = ct := by
  unfold getProject
  rcases env.fetchResult with msg | proj <;> intro u ct2 hmem <;> simp at hmem <;> tauto

/-- Evaluating the list prompt at each of the four menu positions. -/
theorem listPrompt_picks (d : String) (i l pr : Option String) :
    listPrompt (openChoices d i l pr) (some 0) = d ∧
    listPrompt (openChoices d i l pr) (some 1) = jsOrElse i "not_found" ∧
    listPrompt (openChoices d i l pr) (some 2) = jsOrElse l "not_found" ∧
    listPrompt (openChoices d i l pr) (some 3) = jsOrElse pr "not_found" :=
  ⟨rfl, rfl, rfl, rfl⟩

/-- Reduction of a run that reaches the interactive prompt: argv parses, no
help flag, scope resolves, the path validates and the project links.  The
run issues the three lookups with the updated current team and branches on
the prompt result. -/
theorem openCmd_linked_run (env : Env) (config : Config) (scope : Scope)
    (project : Project) (org : Org) (p : String)
    (hargv : env.argvError = none) (hhelp : env.helpFlag = false)
    (hscope : env.scopeResult = .ok scope)
    (hval : env.validateResult = .valid p)
    (hlink : env.linkResult = .linked project org) :
    openCmd env config =
      (if listPrompt (openChoices (getDashboardUrl org project)
            (getInspectorUrl env project org scope.team (updatedTeam org)).1
            (getLatestDeploymentUrl env project scope.team (updatedTeam org)).1
            (getLatestProdDeployment env project scope.team (updatedTeam org)).1)
          env.userPick = "not_found" then
        .ok (1, (getInspectorUrl env project org scope.team (updatedTeam org)).2 ++
            (getLatestDeploymentUrl env project scope.team (updatedTeam org)).2 ++
            (getLatestProdDeployment env project scope.team (updatedTeam org)).2 ++
            [Event.logOut noDeploymentsMessage],
          { currentTeam := updatedTeam org, otherConfig := config.otherConfig })
      else if listPrompt (openChoices (getDashboardUrl org project)
            (getInspectorUrl env project org scope.team (updatedTeam org)).1
            (getLatestDeploymentUrl env project scope.team (updatedTeam org)).1
            (getLatestProdDeployment env project scope.team (updatedTeam org)).1)
          env.userPick = "" then
        .ok (0, (getInspectorUrl env project org scope.team (updatedTeam org)).2 ++
            (getLatestDeploymentUrl env project scope.team (updatedTeam org)).2 ++
            (getLatestProdDeployment env project scope.team (updatedTeam org)).2,
          { currentTeam := updatedTeam org, otherConfig := config.otherConfig })
      else
        .ok (0, (getInspectorUrl env project org scope.team (updatedTeam org)).2 ++
            (getLatestDeploymentUrl env project scope.team (updatedTeam org)).2 ++
            (getLatestProdDeployment env project scope.team (updatedTeam org)).2 ++
            [Event.execa "open"
              [listPrompt (openChoices (getDashboardUrl org project)
                (getInspectorUrl env project org scope.team (updatedTeam org)).1
                (getLatestDeploymentUrl env project scope.team (updatedTeam org)).1
                (getLatestProdDeployment env project scope.team (updatedTeam org)).1)
                env.userPick],
             Event.logOut ("🪄 Opened " ++
               link (listPrompt (openChoices (getDashboardUrl org project)
                 (getInspectorUrl env project org scope.team (updatedTeam org)).1
                 (getLatestDeploymentUrl env project scope.team (updatedTeam org)).1
                 (getLatestProdDeployment env project scope.team (updatedTeam org)).1)
                 env.userPick))],
          { currentTeam := updatedTeam org, otherConfig := config.otherConfig })) := by
  simp [openCmd, hargv, hhelp, hscope, hval, hlink]

/-! Claim theorems. -/

/-- C2: when the first latest deployment of the fetched record has id
dpl_abc123, the inspector URL is exactly
https://vercel.com/{org}/{project}/abc123, the dpl_ prefix stripped. -/
theorem c2_inspector_url (env : Env) (project : Project) (org : Org)
    (team : Option Team) (ct : Option String) (proj : ProjRecord)
    (hfetch : env.fetchResult = .ok proj)
    (hid : (proj.latestDeployments.bind List.head?).bind Deployment.id =
      some "dpl_abc123") :
    (getInspectorUrl env project org team ct).1 =
      some ("https://vercel.com/" ++ org.slug ++ "/" ++ project.name ++ "/abc123") := by
  have hrep : jsReplaceFirst "dpl_abc123" "dpl_" "" = "abc123" := by decide
  have hstr : ∀ s : String, s ++ "/" ++ "abc123" = s ++ "/abc123" := fun s => by
    rw [String.append_assoc]
    rfl
  simp only [getInspectorUrl, getProject, hfetch, hid, Option.map_some']
  rw [hrep]
  simp [hstr]

/-- C2 witness: the inspector URL of the sample run with latest deployment id
dpl_abc123. -/
theorem c2_witness :
    (getInspectorUrl envC2 projectC orgC scopeC.team (updatedTeam orgC)).1 =
      some ("https://vercel.com/" ++ orgC.slug ++ "/" ++ projectC.name ++ "/abc123") :=
  c2_inspector_url envC2 projectC orgC scopeC.team (updatedTeam orgC)
    ⟨some [⟨some "dpl_abc123", some "web-abc.vercel.app"⟩], none⟩ rfl rfl

/-- C10: the id rewrite removes only the first occurrence of dpl_, wherever
it occurs: a middle occurrence is removed, of two occurrences only the first
is removed, and an empty or absent id yields no inspector URL at all. -/
theorem c10_replace_first_occurrence :
    (getInspectorUrl envMid projectC orgC none none).1 =
      some "https://vercel.com/acme/web/abcdef" ∧
    (getInspectorUrl envDouble projectC orgC none none).1 =
      some "https://vercel.com/acme/web/dpl_x" ∧
    (getInspectorUrl envEmptyId projectC orgC none none).1 = none ∧
    (getInspectorUrl envNoId projectC orgC none none).1 = none := by
  refine ⟨?_, ?_, ?_, ?_⟩ <;> decide

/-- C1: when the fetched project record has no latest deployment id, no
latest deployment url and no production target, the three deployment-derived
menu choices all carry the not_found sentinel, and a run in which the user
picks any of the three logs the no-deployments message and returns exit
code 1. -/
theorem c1_no_deployments_sentinel (env : Env) (config : Config) (scope : Scope)
    (project : Project) (org : Org) (p : String) (proj : ProjRecord)
    (hargv : env.argvError = none) (hhelp : env.helpFlag = false)
    (hscope : env.scopeResult = .ok scope)
    (hval : env.validateResult = .valid p)
    (hlink : env.linkResult = .linked project org)
    (hfetch : env.fetchResult = .ok proj)
    (hid : (proj.latestDeployments.bind List.head?).bind Deployment.id = none)
    (hurl : (proj.latestDeployments.bind List.head?).bind Deployment.url = none)
    (hprod : proj.targets.bind Targets.production = none)
    (hpick : env.userPick = some 1 ∨ env.userPick = some 2 ∨ env.userPick = some 3) :
    (openChoices (getDashboardUrl org project)
        (getInspectorUrl env project org scope.team (updatedTeam org)).1
        (getLatestDeploymentUrl env project scope.team (updatedTeam org)).1
        (getLatestProdDeployment env project scope.team (updatedTeam org)).1).map
      MenuChoice.value =
      [getDashboardUrl org project, "not_found", "not_found", "not_found"] ∧
    ∃ evs cfg2, openCmd env config = .ok (1, evs, cfg2) ∧
      Event.logOut noDeploymentsMessage ∈ evs := by
  have h1 : (getInspectorUrl env project org scope.team (updatedTeam org)).1 = none := by
    simp [getInspectorUrl, getProject, hfetch, hid]
  have h2 : (getLatestDeploymentUrl env project scope.team (updatedTeam org)).1 = none := by
    simp [getLatestDeploymentUrl, getProject, hfetch, hurl]
  have h3 : (getLatestProdDeployment env project scope.team (updatedTeam org)).1 = none := by
    simp [getLatestProdDeployment, getProject, hfetch, hprod]
  constructor
  · simp [openChoices, h1, h2, h3, jsOrElse]
  · rw [openCmd_linked_run env config scope project org p hargv hhelp hscope hval hlink]
    have hch : listPrompt
        (openChoices (getDashboardUrl org project)
          (getInspectorUrl env project org scope.team (updatedTeam org)).1
          (getLatestDeploymentUrl env project scope.team (updatedTeam org)).1
          (getLatestProdDeployment env project scope.team (updatedTeam org)).1)
        env.userPick = "not_found" := by
      rcases hpick with h | h | h <;> rw [h] <;>
        simp [listPrompt_picks, h1, h2, h3, jsOrElse]
    rw [hch, if_pos rfl]
    exact ⟨_, _, rfl, by simp⟩

/-- C1 witness: the sample run with an empty deployments list and the
inspector choice picked. -/
theorem c1_witness :
    (openChoices (getDashboardUrl orgC projectC)
        (getInspectorUrl envC1 projectC orgC scopeC.team (updatedTeam orgC)).1
        (getLatestDeploymentUrl envC1 projectC scopeC.team (updatedTeam orgC)).1
        (getLatestProdDeployment envC1 projectC scopeC.team (updatedTeam orgC)).1).map
      MenuChoice.value =
      [getDashboardUrl orgC projectC, "not_found", "not_found", "not_found"] ∧
    ∃ evs cfg2, openCmd envC1 cfgC = .ok (1, evs, cfg2) ∧
      Event.logOut noDeploymentsMessage ∈ evs :=
  c1_no_deployments_sentinel envC1 cfgC scopeC projectC orgC "/cwd"
    ⟨some [], none⟩ rfl rfl rfl rfl rfl rfl rfl rfl rfl (Or.inl rfl)

/-- C3: a run in which the user aborts the prompt returns exit code 0 and
emits no subprocess launch and no log line. -/
theorem c3_abort_exits_zero (env : Env) (config : Config) (scope : Scope)
    (project : Project) (org : Org) (p : String)
    (hargv : env.argvError = none) (hhelp : env.helpFlag = false)
    (hscope : env.scopeResult = .ok scope)
    (hval : env.validateResult = .valid p)
    (hlink : env.linkResult = .linked project org)
    (hpick : env.userPick = none) :
    ∃ evs cfg2, openCmd env config = .ok (0, evs, cfg2) ∧
      evs.all (fun e => !e.isExeca && !e.isLogOut) = true := by
  rw [openCmd_linked_run env config scope project org p hargv hhelp hscope hval hlink,
    hpick]
  rw [show ∀ c, listPrompt c none = "" from fun c => rfl]
  rw [if_neg (by decide : ¬ ("" : String) = "not_found"), if_pos rfl]
  refine ⟨_, _, rfl, ?_⟩
  simp only [List.all_append, Bool.and_eq_true]
  exact ⟨⟨getProject_events_benign env project scope.team _,
    getProject_events_benign env project scope.team _⟩,
    getProject_events_benign env project scope.team _⟩

/-- C3 witness: the sample run in which the user aborts. -/
theorem c3_witness :
    ∃ evs cfg2, openCmd envC3 cfgC = .ok (0, evs, cfg2) ∧
      evs.all (fun e => !e.isExeca && !e.isLogOut) = true :=
  c3_abort_exits_zero envC3 cfgC scopeC projectC orgC "/cwd"
    rfl rfl rfl rfl rfl rfl

/-- C4: a rejected project fetch is caught: its message goes to output.error,
getProject yields undefined, all three URL helpers yield undefined, and the
run still completes normally (here the Dashboard pick succeeds with exit
code 0), the error never being rethrown. -/
theorem c4_fetch_error_downgraded (env : Env) (config : Config) (scope : Scope)
    (project : Project) (org : Org) (p : String) (msg : String)
    (team : Option Team) (ct : Option String)
    (hargv : env.argvError = none) (hhelp : env.helpFlag = false)
    (hscope : env.scopeResult = .ok scope)
    (hval : env.validateResult = .valid p)
    (hlink : env.linkResult = .linked project org)
    (hfetch : env.fetchResult = .error msg)
    (hpick : env.userPick = some 0) :
    (getProject env project team ct).1 = none ∧
    Event.errorOut msg ∈ (getProject env project team ct).2 ∧
    (getInspectorUrl env project org team ct).1 = none ∧
    (getLatestDeploymentUrl env project team ct).1 = none ∧
    (getLatestProdDeployment env project team ct).1 = none ∧
    ∃ evs cfg2, openCmd env config = .ok (0, evs, cfg2) ∧
      Event.errorOut msg ∈ evs := by
  refine ⟨by simp [getProject, hfetch], by simp [getProject, hfetch],
    by simp [getInspectorUrl, getProject, hfetch],
    by simp [getLatestDeploymentUrl, getProject, hfetch],
    by simp [getLatestProdDeployment, getProject, hfetch], ?_⟩
  rw [openCmd_linked_run env config scope project org p hargv hhelp hscope hval hlink,
    hpick]
  rw [(listPrompt_picks (getDashboardUrl org project)
    (getInspectorUrl env project org scope.team (updatedTeam org)).1
    (getLatestDeploymentUrl env project scope.team (updatedTeam org)).1
    (getLatestProdDeployment env project scope.team (updatedTeam org)).1).1]
  rw [if_neg (dashboardUrl_ne org project).1, if_neg (dashboardUrl_ne org project).2]
  refine ⟨_, _, rfl, ?_⟩
  simp [getInspectorUrl, getProject, hfetch]

/-- C4 witness: the sample run whose fetch rejects, Dashboard picked. -/
theorem c4_witness :
    (getProject envC4 projectC scopeC.team (updatedTeam orgC)).1 = none ∧
    Event.errorOut "fetch failed" ∈
      (getProject envC4 projectC scopeC.team (updatedTeam orgC)).2 ∧
    (getInspectorUrl envC4 projectC orgC scopeC.team (updatedTeam orgC)).1 = none ∧
    (getLatestDeploymentUrl envC4 projectC scopeC.team (updatedTeam orgC)).1 = none ∧
    (getLatestProdDeployment envC4 projectC scopeC.team (updatedTeam orgC)).1 = none ∧
    ∃ evs cfg2, openCmd envC4 cfgC = .ok (0, evs, cfg2) ∧
      Event.errorOut "fetch failed" ∈ evs :=
  c4_fetch_error_downgraded envC4 cfgC scopeC projectC orgC "/cwd" "fetch failed"
    scopeC.team (updatedTeam orgC) rfl rfl rfl rfl rfl rfl rfl

/-- C7: the Dashboard choice is always first in the menu, its value is the
dashboard URL built purely from org slug and project name whatever the three
fetched URLs turned out to be, and that value is never the not_found
sentinel. -/
theorem c7_dashboard_always_usable (org : Org) (project : Project)
    (insp lat prod : Option String) :
    ((openChoices (getDashboardUrl org project) insp lat prod).map
      MenuChoice.value).head? =
      some ("https://vercel.com/" ++ org.slug ++ "/" ++ project.name) ∧
    getDashboardUrl org project ≠ "not_found" :=
  ⟨by simp [openChoices, getDashboardUrl], (dashboardUrl_ne org project).1⟩

/-- C5: the command only ever returns exit code 0, 1 or 2, granted that the
codes the path validator and the project linker propagate are themselves in
that set (both collaborators live outside this file). -/
theorem c5_exit_codes (env : Env) (config : Config)
    (hval : ∀ c, env.validateResult = .invalid c → c = 0 ∨ c = 1 ∨ c = 2)
    (hlink : ∀ n, env.linkResult = .exitCode n → n = 0 ∨ n = 1 ∨ n = 2)
    (code : Nat) (evs : List Event) (cfg2 : Config)
    (hrun : openCmd env config = .ok (code, evs, cfg2)) :
    code = 0 ∨ code = 1 ∨ code = 2 := by
  rcases ha : env.argvError with _ | msg
  case some =>
    unfold openCmd at hrun
    rw [ha] at hrun
    simp at hrun
    omega
  case none =>
  cases hh : env.helpFlag
  case true =>
    unfold openCmd at hrun
    rw [ha, hh] at hrun
    simp at hrun
    omega
  case false =>
  rcases hs : env.scopeResult with err | scope
  case error =>
    unfold openCmd at hrun
    rw [ha, hh, hs] at hrun
    simp at hrun
    split at hrun
    · simp at hrun
      omega
    · simp at hrun
  case ok =>
  rcases hv : env.validateResult with c | path
  case invalid =>
    unfold openCmd at hrun
    rw [ha, hh, hs, hv] at hrun
    simp at hrun
    obtain ⟨h1, -⟩ := hrun
    rcases hval c hv with h | h | h <;> omega
  case valid =>
  rcases hl : env.linkResult with n | ⟨project, org⟩
  case exitCode =>
    unfold openCmd at hrun
    rw [ha, hh, hs, hv, hl] at hrun
    simp at hrun
    obtain ⟨h1, -⟩ := hrun
    rcases hlink n hl with h | h | h <;> omega
  case linked =>
    rw [openCmd_linked_run env config scope project org path ha hh hs hv hl] at hrun
    split at hrun
    · simp at hrun
      omega
    · split at hrun <;> simp at hrun <;> omega

/-- C5 witness: the help run exits with code 2, which is in the allowed
set. -/
theorem c5_witness : (2 : Nat) = 0 ∨ (2 : Nat) = 1 ∨ (2 : Nat) = 2 :=
  c5_exit_codes envHelp cfgC (fun _ h => nomatch h) (fun _ h => nomatch h)
    2 [] cfgC rfl

/-- C6: a scope-resolution error with code NOT_AUTHORIZED or TEAM_DELETED is
surfaced through output.error and the command returns exit code 1; a scope
error with any other code is rethrown unchanged. -/
theorem c6_scope_error_handling (env : Env) (config : Config) (err : ScopeErr)
    (hargv : env.argvError = none) (hhelp : env.helpFlag = false)
    (hscope : env.scopeResult = .error err) :
    ((err.code = "NOT_AUTHORIZED" ∨ err.code = "TEAM_DELETED") →
      openCmd env config = .ok (1, [Event.errorOut err.message], config)) ∧
    ((err.code ≠ "NOT_AUTHORIZED" ∧ err.code ≠ "TEAM_DELETED") →
      openCmd env config = .error err) := by
  have hred : openCmd env config =
      (if err.code = "NOT_AUTHORIZED" ∨ err.code = "TEAM_DELETED" then
        .ok (1, [Event.errorOut err.message], config)
      else .error err) := by
    simp [openCmd, hargv, hhelp, hscope]
  rw [hred]
  constructor <;> intro h
  · rw [if_pos h]
  · rw [if_neg (not_or.mpr ⟨h.1, h.2⟩)]

/-- C6 witness: the sample NOT_AUTHORIZED scope error. -/
theorem c6_witness :
    ((errC6.code = "NOT_AUTHORIZED" ∨ errC6.code = "TEAM_DELETED") →
      openCmd envC6 cfgC = .ok (1, [Event.errorOut errC6.message], cfgC)) ∧
    ((errC6.code ≠ "NOT_AUTHORIZED" ∧ errC6.code ≠ "TEAM_DELETED") →
      openCmd envC6 cfgC = .error errC6) :=
  c6_scope_error_handling envC6 cfgC errC6 rfl rfl rfl

/-- C8: when the prompt returns a value that is neither the not_found
sentinel nor the abort value, the run launches the OS open command exactly
once, with that value as its single argument, prints exactly one log line,
namely the confirmation containing the value, and returns exit code 0. -/
theorem c8_launch_on_url_choice (env : Env) (config : Config) (scope : Scope)
    (project : Project) (org : Org) (p : String) (v : String)
    (hargv : env.argvError = none) (hhelp : env.helpFlag = false)
    (hscope : env.scopeResult = .ok scope)
    (hval : env.validateResult = .valid p)
    (hlink : env.linkResult = .linked project org)
    (hv : listPrompt (openChoices (getDashboardUrl org project)
        (getInspectorUrl env project org scope.team (updatedTeam org)).1
        (getLatestDeploymentUrl env project scope.team (updatedTeam org)).1
        (getLatestProdDeployment env project scope.team (updatedTeam org)).1)
        env.userPick = v)
    (hnf : v ≠ "not_found") (hne : v ≠ "") :
    ∃ evs cfg2, openCmd env config = .ok (0, evs, cfg2) ∧
      evs.filter Event.isExeca = [Event.execa "open" [v]] ∧
      evs.filter Event.isLogOut = [Event.logOut ("🪄 Opened " ++ link v)] := by
  rw [openCmd_linked_run env config scope project org p hargv hhelp hscope hval hlink,
    hv, if_neg hnf, if_neg hne]
  have he := helper_events_eq env project org scope.team (updatedTeam org)
  rw [he.1, he.2.1, he.2.2]
  have g1 := getProject_filter_empty env project scope.team (updatedTeam org)
  refine ⟨_, _, rfl, ?_, ?_⟩ <;>
    simp [List.filter_append, g1.1, g1.2, List.filter, Event.isExeca, Event.isLogOut]

/-- C8 witness: the baseline run picks the Dashboard choice, whose URL is
opened and confirmed. -/
theorem c8_witness :
    ∃ evs cfg2, openCmd baseEnv cfgC = .ok (0, evs, cfg2) ∧
      evs.filter Event.isExeca =
        [Event.execa "open" ["https://vercel.com/acme/web"]] ∧
      evs.filter Event.isLogOut =
        [Event.logOut ("🪄 Opened " ++ link "https://vercel.com/acme/web")] :=
  c8_launch_on_url_choice baseEnv cfgC scopeC projectC orgC "/cwd"
    "https://vercel.com/acme/web" rfl rfl rfl rfl rfl rfl
    (by decide) (by decide)

/-- C9: every run that reaches project linking sets the config current team
to the org id exactly when the org is of type team and clears it otherwise,
leaves every other config field unchanged, and issues every fetch only after
that mutation, so each fetch sees the updated team. -/
theorem c9_config_mutation (env : Env) (config : Config) (scope : Scope)
    (project : Project) (org : Org) (p : String)
    (hargv : env.argvError = none) (hhelp : env.helpFlag = false)
    (hscope : env.scopeResult = .ok scope)
    (hval : env.validateResult = .valid p)
    (hlink : env.linkResult = .linked project org) :
    ∃ code evs cfg2, openCmd env config = .ok (code, evs, cfg2) ∧
      cfg2.currentTeam = (if org.type = "team" then some org.id else none) ∧
      cfg2.otherConfig = config.otherConfig ∧
      ∀ u ct, Event.fetch u ct ∈ evs →
        ct = (if org.type = "team" then some org.id else none) := by
  rw [openCmd_linked_run env config scope project org p hargv hhelp hscope hval hlink]
  have hfetches : ∀ u ct, Event.fetch u ct ∈
      ((getInspectorUrl env project org scope.team (updatedTeam org)).2 ++
       (getLatestDeploymentUrl env project scope.team (updatedTeam org)).2 ++
       (getLatestProdDeployment env project scope.team (updatedTeam org)).2) →
      ct = updatedTeam org := by
    intro u ct hm
    have he := helper_events_eq env project org scope.team (updatedTeam org)
    rw [he.1, he.2.1, he.2.2] at hm
    simp only [List.mem_append] at hm
    rcases hm with (hm | hm) | hm <;>
      exact getProject_fetch_team env project scope.team _ u ct hm
  split
  · refine ⟨_, _, _, rfl, rfl, rfl, ?_⟩
    intro u ct hm
    rcases List.mem_append.mp hm with hm | hm
    · exact hfetches u ct hm
    · simp at hm
  · split
    · refine ⟨_, _, _, rfl, rfl, rfl, ?_⟩
      intro u ct hm
      exact hfetches u ct hm
    · refine ⟨_, _, _, rfl, rfl, rfl, ?_⟩
      intro u ct hm
      rcases List.mem_append.mp hm with hm | hm
      · exact hfetches u ct hm
      · simp at hm

/-- C9 witness: the baseline run, whose org is of type team. -/
theorem c9_witness :
    ∃ code evs cfg2, openCmd baseEnv cfgC = .ok (code, evs, cfg2) ∧
      cfg2.currentTeam = (if orgC.type = "team" then some orgC.id else none) ∧
      cfg2.otherConfig = cfgC.otherConfig ∧
      ∀ u ct, Event.fetch u ct ∈ evs →
        ct = (if orgC.type = "team" then some orgC.id else none) :=
  c9_config_mutation baseEnv cfgC scopeC projectC orgC "/cwd" rfl rfl rfl rfl rfl
